import Mathlib

/-!
Verification of the observation filtering and aggregation pipeline of the
dashboard_bufeo single-page dashboard (src/src/App.jsx).

The embedding models:
  the data model (`Trip`, `Point` = ObservationPoint rows of the `trips`
  and `trip_data` tables); the push-update handlers of
  `subscribeToUpdates` (lines 108-120) as a step function on the
  in-memory state; the filter pipeline `filteredPoints` (lines 123-145);
  the statistics fold `stats` (lines 153-167).

Conventions of the embedding:
  Timestamps are modelled as epoch milliseconds (`Int`).  The
  `created_at` field of a point is `Option Int`: `none` stands for an
  absent or unparseable timestamp (in the source, `parseISO` yields an
  Invalid Date there and every comparison against it is false).

  The date inputs (`filterStartDate`, `filterEndDate`) only ever hold a
  whole calendar day or the empty string, so they are modelled as
  `Option Int` holding the day index (days since the epoch); `none` is
  the empty string, which is falsy in the truthiness guard of the date
  stage.  `startOfDay` and `endOfDay` applied to the parsed day give the
  first and last millisecond of that day.

  JavaScript objects used as histograms (`acc.dangerTypes`,
  `acc.healthStatus`) are modelled as insertion-ordered association
  lists: incrementing a key bumps the entry of an existing key in place
  and otherwise appends a fresh entry at the end, exactly as a JS
  string-keyed object records keys in insertion order.

  The JS truthiness default (`x || "Desconocido"`) maps both a missing
  field and the empty string to the literal `"Desconocido"` (the Spanish
  literal of the source, which the spec renders as "Unknown"); the
  numeric default (`x || 0`) maps a missing count to `0`.
-/

/-- Row of the `trips` table: identifier and owning user. -/
structure Trip where
  id : String
  user_id : String
  deriving DecidableEq, Repr

/-- Row of the `trip_data` table (an ObservationPoint).  Optional fields
are `Option`: `none` models SQL null / absent. -/
structure Point where
  id : String
  trip_id : Option String
  type : String
  created_at : Option Int
  adults : Option Int
  calves : Option Int
  danger_type : Option String
  health_status : Option String
  deriving DecidableEq, Repr

/-- Milliseconds in one day. -/
def msPerDay : Int := 86400000

/-- Semantics of `startOfDay(parseISO(d))` for a date-only string parsed
to day index `d`: the first millisecond of the day. -/
def startOfDay (d : Int) : Int := d * msPerDay

/-- Semantics of `endOfDay(parseISO(d))` for a date-only string parsed
to day index `d`: the last millisecond of the day (23:59:59.999). -/
def endOfDay (d : Int) : Int := d * msPerDay + (msPerDay - 1)

/-- Day index (days since 1970-01-01) of a civil date, the standard
civil calendar arithmetic that `parseISO` performs on a date-only
string. -/
def daysFromCivil (y : Int) (m d : Int) : Int :=
  let y2 : Int := if m ≤ 2 then y - 1 else y
  let era : Int := (if 0 ≤ y2 then y2 else y2 - 399) / 400
  let yoe : Int := y2 - era * 400
  let mp : Int := if m > 2 then m - 3 else m + 9
  let doy : Int := (153 * mp + 2) / 5 + d - 1
  let doe : Int := yoe * 365 + yoe / 4 - yoe / 100 + doy
  era * 146097 + doe - 719468

/-- Epoch milliseconds of a UTC civil date-time, the value `parseISO`
produces for a full ISO timestamp with Z offset. -/
def utcMillis (y m d hh mm ss : Int) : Int :=
  daysFromCivil y m d * msPerDay + ((hh * 60 + mm) * 60 + ss) * 1000

/-- Record of the four layer toggles of `activeLayers` (App.jsx lines
76-81). -/
structure Layers where
  inicio : Bool
  fin : Bool
  avistamiento : Bool
  peligro : Bool
  deriving DecidableEq, Repr

/-- Semantics of `activeLayers[p.type]`: property lookup on the layers
object; any other key is undefined, which is falsy in the final
filter. -/
def Layers.lookup (l : Layers) (t : String) : Bool :=
  if t = "Inicio" then l.inicio
  else if t = "Fin" then l.fin
  else if t = "Avistamiento" then l.avistamiento
  else if t = "Peligro" then l.peligro
  else false

/-- The filter selection state (App.jsx lines 69-72 and 76-81). -/
structure Filters where
  filterUser : String
  filterStartDate : Option Int
  filterEndDate : Option Int
  filterTrip : String
  activeLayers : Layers
  deriving DecidableEq, Repr

/-- Embedding of `trips.filter(t => t.user_id === filterUser).map(t =>
t.id)` (App.jsx line 126). -/
def userTripIds (trips : List Trip) (u : String) : List String :=
  (trips.filter (fun t => decide (t.user_id = u))).map (fun t => t.id)

/-- Embedding of `userTripIds.includes(p.trip_id)` (App.jsx line 127); a
null trip reference is never strictly equal to a string id. -/
def userPred (trips : List Trip) (u : String) (p : Point) : Bool :=
  match p.trip_id with
  | none => false
  | some tid => (userTripIds trips u).contains tid

/-- The date-range predicate of App.jsx lines 130-139.  An absent or
unparseable `created_at` parses to an Invalid Date whose comparisons are
all false, so the point is dropped. -/
def datePred (sd ed : Option Int) (p : Point) : Bool :=
  match p.created_at with
  | none => false
  | some t =>
    match sd, ed with
    | some s, some e => decide (startOfDay s ≤ t) && decide (t ≤ endOfDay e)
    | some s, none => decide (startOfDay s ≤ t)
    | none, some e => decide (t ≤ endOfDay e)
    | none, none => true

/-- Embedding of `p.trip_id === filterTrip` (App.jsx line 142). -/
def tripPred (tripSel : String) (p : Point) : Bool :=
  p.trip_id == some tripSel

/-- The filter pipeline `filteredPoints` (App.jsx lines 123-145): the
user stage, the date-range stage, the trip stage, then the layer-type
stage, each a plain filter guarded by its activation test. -/
def filteredPoints (trips : List Trip) (f : Filters) (points : List Point) :
    List Point :=
  let r1 := if f.filterUser ≠ "all"
    then points.filter (userPred trips f.filterUser) else points
  let r2 := if f.filterStartDate.isSome || f.filterEndDate.isSome
    then r1.filter (datePred f.filterStartDate f.filterEndDate) else r1
  let r3 := if f.filterTrip ≠ "all"
    then r2.filter (tripPred f.filterTrip) else r2
  r3.filter (fun p => f.activeLayers.lookup p.type)

/-- JS truthiness default on a string field (`x || "Desconocido"`): both
a missing value and the empty string are falsy. -/
def orDesconocido (s : Option String) : String :=
  match s with
  | none => "Desconocido"
  | some v => if v = "" then "Desconocido" else v

/-- A JS string-keyed object used as a counter: insertion-ordered
association list. -/
abbrev Histo := List (String × Nat)

/-- Incrementing a counter object at key `k`: bump the entry of `k` in
place if the key is present, otherwise append a fresh `(k, 1)` entry at
the end. -/
def bump : Histo → String → Histo
  | [], k => [(k, 1)]
  | kv :: rest, k =>
    if kv.1 = k then (kv.1, kv.2 + 1) :: rest else kv :: bump rest k

/-- Reading a counter object (`obj[k] || 0`): zero for a missing key. -/
def hlookup (m : Histo) (k : String) : Nat :=
  match m.find? (fun kv => decide (kv.1 = k)) with
  | some kv => kv.2
  | none => 0

/-- Sum of all counts recorded in a histogram object. -/
def htotal (m : Histo) : Nat := (m.map (fun kv => kv.2)).sum

/-- Accumulator of the statistics fold (App.jsx line 166). -/
structure Stats where
  adults : Int
  calves : Int
  danger : Nat
  dangerTypes : Histo
  healthStatus : Histo
  deriving DecidableEq, Repr

/-- The initial accumulator: zero counters and empty histograms. -/
def initStats : Stats :=
  { adults := 0, calves := 0, danger := 0, dangerTypes := [], healthStatus := [] }

/-- One step of the reducer of App.jsx lines 154-165. -/
def statsStep (acc : Stats) (curr : Point) : Stats :=
  if curr.type = "Avistamiento" then
    { acc with
      adults := acc.adults + (curr.adults.getD 0)
      calves := acc.calves + (curr.calves.getD 0) }
  else if curr.type = "Peligro" then
    { acc with
      danger := acc.danger + 1
      dangerTypes := bump acc.dangerTypes (orDesconocido curr.danger_type)
      healthStatus := bump acc.healthStatus (orDesconocido curr.health_status) }
  else acc

/-- The statistics fold over the filtered points (App.jsx lines
153-167). -/
def stats (ps : List Point) : Stats := ps.foldl statsStep initStats

/-- Push event delivered on the realtime channel (App.jsx lines
111-116): an INSERT on `trip_data` or on `trips`. -/
inductive PushEvent where
  | insertPoint (p : Point)
  | insertTrip (t : Trip)
  deriving DecidableEq, Repr

/-- The in-memory collections touched by the subscription: `trips` and
`points`. -/
structure SessionState where
  trips : List Trip
  points : List Point
  deriving DecidableEq, Repr

/-- The subscription handlers of `subscribeToUpdates` (App.jsx lines
108-120): a new point is appended at the back, a new trip is prepended
at the front (`[payload.new, ...prev]`). -/
def applyEvent (s : SessionState) : PushEvent → SessionState
  | .insertPoint p => { s with points := s.points ++ [p] }
  | .insertTrip t => { s with trips := t :: s.trips }

/-- Applying a sequence of push events in arrival order. -/
def applyEvents (s : SessionState) (es : List PushEvent) : SessionState :=
  es.foldl applyEvent s

/-- Activation test of stage `i` of the pipeline (stage 1 is the
truthiness guard on the two date bounds, the final layer-type stage 3 is
unconditional). -/
def stageGuard (f : Filters) (i : Nat) : Bool :=
  match i with
  | 0 => f.filterUser != "all"
  | 1 => f.filterStartDate.isSome || f.filterEndDate.isSome
  | 2 => f.filterTrip != "all"
  | 3 => true
  | _ => false

/-- Filter callback of stage `i` of the pipeline. -/
def stagePred (trips : List Trip) (f : Filters) (i : Nat) : Point → Bool :=
  match i with
  | 0 => userPred trips f.filterUser
  | 1 => datePred f.filterStartDate f.filterEndDate
  | 2 => tripPred f.filterTrip
  | _ => fun p => f.activeLayers.lookup p.type

/-- Stage `i` of the pipeline: its filter when its guard is active,
otherwise the identity (an index outside 0..3 is the identity). -/
def stage (trips : List Trip) (f : Filters) (i : Nat) (ps : List Point) :
    List Point :=
  if stageGuard f i then ps.filter (stagePred trips f i) else ps

/-- Running a list of stage indices left to right. -/
def applyStages (trips : List Trip) (f : Filters) (order : List Nat)
    (ps : List Point) : List Point :=
  order.foldl (fun acc i => stage trips f i acc) ps

/-- Contribution of one point to the running `adults` sum. -/
def adultsContrib (p : Point) : Int :=
  if p.type = "Avistamiento" then p.adults.getD 0 else 0

/-- Contribution of one point to the running `calves` sum. -/
def calvesContrib (p : Point) : Int :=
  if p.type = "Avistamiento" then p.calves.getD 0 else 0

/-- Whether a point takes the hazard branch of the reducer. -/
def isPeligro (p : Point) : Bool := decide (p.type = "Peligro")

/-- Sample point with every optional field absent, the base of the
concrete scenario records. -/
def basePoint : Point :=
  { id := "", trip_id := none, type := "", created_at := none,
    adults := none, calves := none, danger_type := none,
    health_status := none }

/-- Sighting of the aggregation scenario: 2 adults, 1 calf. -/
def sightingPoint : Point :=
  { basePoint with
    id := "p1", type := "Avistamiento", adults := some 2, calves := some 1 }

/-- First hazard of the aggregation scenario: danger type net, health
status injured. -/
def hazardNetInjured : Point :=
  { basePoint with
    id := "p2", type := "Peligro", danger_type := some ("net"),
    health_status := some ("injured") }

/-- Second hazard of the aggregation scenario: danger type net, no
health status. -/
def hazardNetOnly : Point :=
  { basePoint with
    id := "p3", type := "Peligro", danger_type := some ("net") }

/-- First of two sample trips owned by the same user. -/
def tripA : Trip := { id := "t0", user_id := "u1" }

/-- Second of two sample trips owned by the same user. -/
def tripB : Trip := { id := "t1", user_id := "u1" }

/-- All four layer toggles enabled (the initial `activeLayers` state). -/
def allLayers : Layers :=
  { inicio := true, fin := true, avistamiento := true, peligro := true }

/-- Day index of 2024-01-01. -/
def scenDay : Int := daysFromCivil 2024 1 1

/-- Filter selection restricting only the date range, to the single day
2024-01-01 on both bounds. -/
def dateFilters : Filters :=
  { filterUser := "all", filterStartDate := some scenDay,
    filterEndDate := some scenDay, filterTrip := "all",
    activeLayers := allLayers }

/-- Point created 2024-01-01T23:59:00Z. -/
def pLateInRange : Point :=
  { basePoint with
    id := "d1", type := "Avistamiento",
    created_at := some (utcMillis 2024 1 1 23 59 0) }

/-- Point created 2024-01-02T00:00:01Z. -/
def pJustAfter : Point :=
  { basePoint with
    id := "d2", type := "Avistamiento",
    created_at := some (utcMillis 2024 1 2 0 0 1) }

/-- Filter selection with only a start bound set. -/
def startOnlyFilters : Filters :=
  { filterUser := "all", filterStartDate := some 0, filterEndDate := none,
    filterTrip := "all", activeLayers := allLayers }

/-- Filter selection restricted to user u1, nothing else. -/
def userFilters : Filters :=
  { filterUser := "u1", filterStartDate := none, filterEndDate := none,
    filterTrip := "all", activeLayers := allLayers }

/-- Point referencing a trip id that exists in no trip collection. -/
def ghostPoint : Point :=
  { basePoint with
    id := "g1", type := "Avistamiento", trip_id := some ("ghost") }

/-- The two sample trips. -/
def sampleTrips : List Trip := [tripA, tripB]

/-- Filter selection engaging every stage: user u1, start bound
2024-01-01, trip t0, hazard layer off. -/
def mixedFilters : Filters :=
  { filterUser := "u1", filterStartDate := some scenDay,
    filterEndDate := none, filterTrip := "t0",
    activeLayers := { allLayers with peligro := false } }

/-- Sample points spread over both trips, several days and several
types. -/
def samplePoints : List Point :=
  [{ basePoint with
     id := "s1", trip_id := some ("t0"), type := "Inicio",
     created_at := some (utcMillis 2024 1 1 10 0 0) },
   { basePoint with
     id := "s2", trip_id := some ("t1"), type := "Avistamiento",
     created_at := some (utcMillis 2024 1 2 10 0 0), adults := some 3 },
   { basePoint with
     id := "s3", trip_id := some ("t0"), type := "Peligro",
     created_at := some (utcMillis 2023 12 31 10 0 0),
     danger_type := some ("net") },
   ghostPoint]

/-- Sanity check of the civil calendar arithmetic: 2024-01-01 is day
19723 of the epoch. -/
theorem daysFromCivil_sanity : daysFromCivil 2024 1 1 = 19723 := by decide

/-- Sanity check of the timestamp helper: 23:59:00 on 2024-01-01 lands
86340000 ms into day 19723. -/
theorem utcMillis_sanity :
    utcMillis 2024 1 1 23 59 0 = 19723 * 86400000 + 86340000 := by decide

/-- A conditionally applied filter stage returns a sublist. -/
theorem ite_filter_sublist (c : Prop) [Decidable c] (pred : Point → Bool)
    (l : List Point) :
    List.Sublist (if c then l.filter pred else l) l := by
  split
  · exact List.filter_sublist l
  · exact List.Sublist.refl l

/-- The pipeline is exactly the four stages run in source order. -/
theorem filteredPoints_eq_stages (trips : List Trip) (f : Filters)
    (ps : List Point) :
    filteredPoints trips f ps =
      stage trips f 3 (stage trips f 2 (stage trips f 1 (stage trips f 0 ps))) := by
  unfold filteredPoints stage stageGuard stagePred
  by_cases h0 : f.filterUser = "all" <;>
    by_cases h2 : f.filterTrip = "all" <;>
      simp [h0, h2]

/-- Any two stages commute: each is either the identity or a filter by a
pointwise predicate, and filters by pointwise predicates commute. -/
theorem stage_comm (trips : List Trip) (f : Filters) (i j : Nat)
    (ps : List Point) :
    stage trips f i (stage trips f j ps) = stage trips f j (stage trips f i ps) := by
  unfold stage
  by_cases hi : stageGuard f i = true <;> by_cases hj : stageGuard f j = true <;>
    simp [hi, hj, List.filter_filter, Bool.and_comm]

/-- Running the stages in any permuted order gives the same result. -/
theorem applyStages_perm (trips : List Trip) (f : Filters)
    {l1 l2 : List Nat} (h : l1.Perm l2) (ps : List Point) :
    applyStages trips f l1 ps = applyStages trips f l2 ps := by
  induction h generalizing ps with
  | nil => rfl
  | cons x _ ih =>
    simp only [applyStages, List.foldl_cons] at ih ⊢
    exact ih _
  | swap x y l =>
    simp only [applyStages, List.foldl_cons]
    rw [stage_comm]
  | trans _ _ ih1 ih2 => rw [ih1, ih2]

theorem stageGuard_zero (f : Filters) :
    stageGuard f 0 = (f.filterUser != "all") := rfl

theorem stageGuard_one (f : Filters) :
    stageGuard f 1 = (f.filterStartDate.isSome || f.filterEndDate.isSome) := rfl

theorem stagePred_zero (trips : List Trip) (f : Filters) :
    stagePred trips f 0 = userPred trips f.filterUser := rfl

theorem stagePred_one (trips : List Trip) (f : Filters) :
    stagePred trips f 1 = datePred f.filterStartDate f.filterEndDate := rfl

/-- Every stage only ever drops points. -/
theorem mem_of_mem_stage (trips : List Trip) (f : Filters) (i : Nat)
    {p : Point} {ps : List Point} (h : p ∈ stage trips f i ps) : p ∈ ps := by
  unfold stage at h
  split at h
  · exact (List.mem_filter.mp h).1
  · exact h

/-- The date predicate holds exactly on a parseable timestamp lying
above every present start bound and below every present end bound. -/
theorem datePred_iff (sd ed : Option Int) (p : Point) :
    datePred sd ed p = true ↔
      ∃ t, p.created_at = some t ∧
        (∀ s, sd = some s → startOfDay s ≤ t) ∧
        (∀ e, ed = some e → t ≤ endOfDay e) := by
  rcases hc : p.created_at with _ | t
  · simp [datePred, hc]
  · rcases sd with _ | s <;> rcases ed with _ | e <;> simp [datePred, hc]

theorem hlookup_nil (s : String) : hlookup [] s = 0 := rfl

theorem hlookup_cons (kv : String × Nat) (rest : Histo) (s : String) :
    hlookup (kv :: rest) s = if kv.1 = s then kv.2 else hlookup rest s := by
  by_cases h : kv.1 = s <;> simp [hlookup, List.find?_cons, h]

theorem htotal_nil : htotal [] = 0 := rfl

theorem htotal_cons (kv : String × Nat) (rest : Histo) :
    htotal (kv :: rest) = kv.2 + htotal rest := by
  simp [htotal]

/-- Bumping key `k` raises the count of `k` by one and no other count. -/
theorem hlookup_bump (m : Histo) (k s : String) :
    hlookup (bump m k) s = hlookup m s + (if k = s then 1 else 0) := by
  induction m with
  | nil =>
    by_cases h : k = s <;> simp [bump, hlookup_cons, hlookup_nil, h]
  | cons kv rest ih =>
    by_cases hk : kv.1 = k
    · by_cases hs : kv.1 = s
      · have hks : k = s := by rw [← hk, hs]
        simp [bump, hk, hlookup_cons, hs, hks]
      · have hks : ¬ k = s := by rw [← hk]; exact hs
        simp [bump, hk, hlookup_cons, hs, hks]
    · by_cases hs : kv.1 = s
      · have hks : ¬ k = s := by intro h; rw [h] at hk; exact hk hs
        have hsk : ¬ s = k := fun h => hks h.symm
        simp [bump, hk, hlookup_cons, hs, hks, hsk]
      · simp [bump, hk, hlookup_cons, hs, ih]

/-- Bumping any key raises the total of the histogram by exactly one. -/
theorem htotal_bump (m : Histo) (k : String) :
    htotal (bump m k) = htotal m + 1 := by
  induction m with
  | nil => simp [bump, htotal_cons, htotal_nil]
  | cons kv rest ih =>
    by_cases hk : kv.1 = k <;> simp [bump, hk, htotal_cons, ih] <;> omega

/-- The `adults` output of the reducer is the sum of the per-point
sighting contributions. -/
theorem foldl_statsStep_adults (ps : List Point) (acc : Stats) :
    (ps.foldl statsStep acc).adults = acc.adults + (ps.map adultsContrib).sum := by
  induction ps generalizing acc with
  | nil => simp
  | cons p rest ih =>
    rw [List.foldl_cons, ih]
    by_cases h1 : p.type = "Avistamiento"
    · simp [statsStep, adultsContrib, h1]
      ring
    · by_cases h2 : p.type = "Peligro" <;>
        simp [statsStep, adultsContrib, h1, h2]

/-- The `calves` output of the reducer is the sum of the per-point
sighting contributions. -/
theorem foldl_statsStep_calves (ps : List Point) (acc : Stats) :
    (ps.foldl statsStep acc).calves = acc.calves + (ps.map calvesContrib).sum := by
  induction ps generalizing acc with
  | nil => simp
  | cons p rest ih =>
    rw [List.foldl_cons, ih]
    by_cases h1 : p.type = "Avistamiento"
    · simp [statsStep, calvesContrib, h1]
      ring
    · by_cases h2 : p.type = "Peligro" <;>
        simp [statsStep, calvesContrib, h1, h2]

/-- The `danger` output of the reducer counts the hazard points. -/
theorem foldl_statsStep_danger (ps : List Point) (acc : Stats) :
    (ps.foldl statsStep acc).danger = acc.danger + ps.countP isPeligro := by
  induction ps generalizing acc with
  | nil => simp
  | cons p rest ih =>
    rw [List.foldl_cons, ih, List.countP_cons]
    by_cases h1 : p.type = "Avistamiento"
    · have h2 : ¬ p.type = "Peligro" := by rw [h1]; decide
      simp [statsStep, isPeligro, h1, h2]
    · by_cases h2 : p.type = "Peligro" <;>
        simp [statsStep, isPeligro, h1, h2] <;> omega

/-- Each bucket of the danger-type histogram counts the hazard points
whose defaulted danger type is the key of that bucket. -/
theorem foldl_statsStep_dangerTypes (ps : List Point) (acc : Stats) (s : String) :
    hlookup (ps.foldl statsStep acc).dangerTypes s =
      hlookup acc.dangerTypes s +
        ps.countP (fun p => isPeligro p && decide (orDesconocido p.danger_type = s)) := by
  induction ps generalizing acc with
  | nil => simp
  | cons p rest ih =>
    rw [List.foldl_cons, ih, List.countP_cons]
    by_cases h1 : p.type = "Avistamiento"
    · have h2 : ¬ p.type = "Peligro" := by rw [h1]; decide
      simp [statsStep, isPeligro, h1, h2]
    · by_cases h2 : p.type = "Peligro"
      · by_cases h3 : orDesconocido p.danger_type = s <;>
          simp [statsStep, isPeligro, h1, h2, h3, hlookup_bump] <;> omega
      · simp [statsStep, isPeligro, h1, h2]

/-- Each bucket of the health-status histogram counts the hazard points
whose defaulted health status is the key of that bucket. -/
theorem foldl_statsStep_healthStatus (ps : List Point) (acc : Stats) (s : String) :
    hlookup (ps.foldl statsStep acc).healthStatus s =
      hlookup acc.healthStatus s +
        ps.countP (fun p => isPeligro p && decide (orDesconocido p.health_status = s)) := by
  induction ps generalizing acc with
  | nil => simp
  | cons p rest ih =>
    rw [List.foldl_cons, ih, List.countP_cons]
    by_cases h1 : p.type = "Avistamiento"
    · have h2 : ¬ p.type = "Peligro" := by rw [h1]; decide
      simp [statsStep, isPeligro, h1, h2]
    · by_cases h2 : p.type = "Peligro"
      · by_cases h3 : orDesconocido p.health_status = s <;>
          simp [statsStep, isPeligro, h1, h2, h3, hlookup_bump] <;> omega
      · simp [statsStep, isPeligro, h1, h2]

/-- The total of the danger-type histogram grows by one per hazard
point. -/
theorem foldl_statsStep_htotal_dangerTypes (ps : List Point) (acc : Stats) :
    htotal (ps.foldl statsStep acc).dangerTypes =
      htotal acc.dangerTypes + ps.countP isPeligro := by
  induction ps generalizing acc with
  | nil => simp
  | cons p rest ih =>
    rw [List.foldl_cons, ih, List.countP_cons]
    by_cases h1 : p.type = "Avistamiento"
    · have h2 : ¬ p.type = "Peligro" := by rw [h1]; decide
      simp [statsStep, isPeligro, h1, h2]
    · by_cases h2 : p.type = "Peligro" <;>
        simp [statsStep, isPeligro, h1, h2, htotal_bump] <;> omega

/-- The total of the health-status histogram grows by one per hazard
point. -/
theorem foldl_statsStep_htotal_healthStatus (ps : List Point) (acc : Stats) :
    htotal (ps.foldl statsStep acc).healthStatus =
      htotal acc.healthStatus + ps.countP isPeligro := by
  induction ps generalizing acc with
  | nil => simp
  | cons p rest ih =>
    rw [List.foldl_cons, ih, List.countP_cons]
    by_cases h1 : p.type = "Avistamiento"
    · have h2 : ¬ p.type = "Peligro" := by rw [h1]; decide
      simp [statsStep, isPeligro, h1, h2]
    · by_cases h2 : p.type = "Peligro" <;>
        simp [statsStep, isPeligro, h1, h2, htotal_bump] <;> omega

/-- C1 counterexample: starting from one fetched trip, a single trip
push event does not leave the collection as fetched trips followed by
pushed trips, because the handler puts the new trip in front
(`setTrips(prev => [payload.new, ...prev])`). -/
theorem trip_push_append_counterexample :
    (applyEvents { trips := [tripA], points := [] }
        [PushEvent.insertTrip tripB]).trips ≠ [tripA, tripB] := by
  decide

/-- C1 amended: a trip push event prepends the new trip to the front of
the local trip collection, so after any sequence of trip push events the
collection holds the pushed trips in reverse arrival order (most recent
first) followed by the initially fetched trips; the point collection is
untouched. -/
theorem trip_push_prepend (s : SessionState) (ts : List Trip) :
    (applyEvents s (ts.map PushEvent.insertTrip)).trips =
        ts.reverse ++ s.trips ∧
      (applyEvents s (ts.map PushEvent.insertTrip)).points = s.points := by
  induction ts generalizing s with
  | nil => simp [applyEvents]
  | cons t rest ih =>
    have h := ih { s with trips := t :: s.trips }
    simpa [applyEvents, applyEvent, List.foldl_cons] using h

/-- C2: for the input [sighting(adults 2, calves 1), hazard(danger type
net, health status injured), hazard(danger type net)], the aggregator
returns adults 2, calves 1, danger count 2, danger-type histogram
mapping net to 2, and health-status histogram mapping injured to 1 and
the literal default bucket to 1 — the absent health status is counted
under the literal `"Desconocido"`, the string of the source that the
spec renders as "Unknown". -/
theorem stats_scenario_net_injured :
    stats [sightingPoint, hazardNetInjured, hazardNetOnly] =
      { adults := 2, calves := 1, danger := 2,
        dangerTypes := [("net", 2)],
        healthStatus := [("injured", 1), ("Desconocido", 1)] } := by
  decide

/-- C3: with the date range [2024-01-01, 2024-01-01], the date stage
(and the whole pipeline) keeps the point created 2024-01-01T23:59:00Z
and drops the point created 2024-01-02T00:00:01Z; in general a point
survives the date stage iff it was in the input and — when at least one
bound is set — its timestamp parses to some `t` with `startOfDay s ≤ t`
for a present start bound `s` and `t ≤ endOfDay e` for a present end
bound `e`, an unset bound imposing no constraint. -/
theorem date_filter_day_bounds :
    stage [] dateFilters 1 [pLateInRange, pJustAfter] = [pLateInRange] ∧
    filteredPoints [] dateFilters [pLateInRange, pJustAfter] = [pLateInRange] ∧
    ∀ (trips : List Trip) (f : Filters) (ps : List Point) (p : Point),
      p ∈ stage trips f 1 ps ↔
        p ∈ ps ∧
          ((f.filterStartDate = none ∧ f.filterEndDate = none) ∨
            ∃ t, p.created_at = some t ∧
              (∀ s, f.filterStartDate = some s → startOfDay s ≤ t) ∧
              (∀ e, f.filterEndDate = some e → t ≤ endOfDay e)) := by
  refine ⟨by decide, by decide, ?_⟩
  intro trips f ps p
  by_cases hg : (f.filterStartDate.isSome || f.filterEndDate.isSome) = true
  · have hne : ¬ (f.filterStartDate = none ∧ f.filterEndDate = none) := by
      rcases hs : f.filterStartDate with _ | s <;>
        rcases he : f.filterEndDate with _ | e <;>
          simp [hs, he] at hg ⊢
    unfold stage
    rw [stageGuard_one, if_pos hg, stagePred_one]
    rw [List.mem_filter, datePred_iff]
    simp [hne]
  · have hb : f.filterStartDate = none ∧ f.filterEndDate = none := by
      rcases hs : f.filterStartDate with _ | s <;>
        rcases he : f.filterEndDate with _ | e <;>
          simp [hs, he] at hg ⊢
    unfold stage
    rw [stageGuard_one, if_neg (by simp [hg])]
    simp [hb]

/-- C4: for every filter selection and every point collection, the
filtered result is a sublist of the input: every output point occurs in
the input, in the original input order, with no invented points. -/
theorem filteredPoints_sublist (trips : List Trip) (f : Filters)
    (ps : List Point) : List.Sublist (filteredPoints trips f ps) ps := by
  unfold filteredPoints
  refine List.Sublist.trans (List.filter_sublist _) ?_
  refine List.Sublist.trans (ite_filter_sublist _ _ _) ?_
  refine List.Sublist.trans (ite_filter_sublist _ _ _) ?_
  exact ite_filter_sublist _ _ _

/-- C5: the four filter stages commute — applying them in any
permutation of the canonical order [user, date, trip, type] yields the
same filtered sequence as `filteredPoints`, for every input collection
and filter selection. -/
theorem filteredPoints_stage_perm (trips : List Trip) (f : Filters)
    (order : List Nat) (h : order.Perm [0, 1, 2, 3]) (ps : List Point) :
    applyStages trips f order ps = filteredPoints trips f ps := by
  rw [applyStages_perm trips f h ps, filteredPoints_eq_stages]
  rfl

/-- Witness for `filteredPoints_stage_perm`: running the stages in the
order trip, user, type, date matches the canonical pipeline on the
sample data. -/
theorem filteredPoints_stage_perm_witness :
    ([2, 0, 3, 1] : List Nat).Perm [0, 1, 2, 3] ∧
      applyStages sampleTrips mixedFilters [2, 0, 3, 1] samplePoints =
        filteredPoints sampleTrips mixedFilters samplePoints :=
  ⟨by decide,
    filteredPoints_stage_perm sampleTrips mixedFilters [2, 0, 3, 1]
      (by decide) samplePoints⟩

/-- C6: aggregation is order-independent — folding any permutation of
the input yields the same `adults`, `calves` and `danger` outputs and
the same histogram mappings (the count of every bucket agrees; only the
insertion order of the bucket keys can differ). -/
theorem stats_perm_invariant (ps qs : List Point) (h : ps.Perm qs) :
    (stats ps).adults = (stats qs).adults ∧
      (stats ps).calves = (stats qs).calves ∧
      (stats ps).danger = (stats qs).danger ∧
      (∀ s, hlookup (stats ps).dangerTypes s = hlookup (stats qs).dangerTypes s) ∧
      (∀ s, hlookup (stats ps).healthStatus s = hlookup (stats qs).healthStatus s) := by
  unfold stats
  refine ⟨?_, ?_, ?_, fun s => ?_, fun s => ?_⟩
  · rw [foldl_statsStep_adults, foldl_statsStep_adults,
      List.Perm.sum_eq (List.Perm.map adultsContrib h)]
  · rw [foldl_statsStep_calves, foldl_statsStep_calves,
      List.Perm.sum_eq (List.Perm.map calvesContrib h)]
  · rw [foldl_statsStep_danger, foldl_statsStep_danger,
      List.Perm.countP_eq _ h]
  · rw [foldl_statsStep_dangerTypes, foldl_statsStep_dangerTypes,
      List.Perm.countP_eq _ h]
  · rw [foldl_statsStep_healthStatus, foldl_statsStep_healthStatus,
      List.Perm.countP_eq _ h]

/-- Witness for `stats_perm_invariant`: swapping the sighting and the
hazard leaves the danger count unchanged. -/
theorem stats_perm_invariant_witness :
    ([sightingPoint, hazardNetInjured].Perm [hazardNetInjured, sightingPoint]) ∧
      (stats [sightingPoint, hazardNetInjured]).danger =
        (stats [hazardNetInjured, sightingPoint]).danger :=
  ⟨List.Perm.swap hazardNetInjured sightingPoint [],
    (stats_perm_invariant _ _
      (List.Perm.swap hazardNetInjured sightingPoint [])).2.2.1⟩

/-- C7: when at least one date bound is set, a point whose creation
timestamp is absent or unparseable (its `parseISO` result is an Invalid
Date, modelled `created_at = none`) is excluded by the pipeline; the
pipeline is a total function, so the point is dropped rather than any
error being raised. -/
theorem missing_timestamp_excluded (trips : List Trip) (f : Filters)
    (ps : List Point) (p : Point)
    (hd : f.filterStartDate ≠ none ∨ f.filterEndDate ≠ none)
    (hc : p.created_at = none) :
    p ∉ filteredPoints trips f ps := by
  intro hmem
  rw [filteredPoints_eq_stages] at hmem
  have h1 : p ∈ stage trips f 1 (stage trips f 0 ps) :=
    mem_of_mem_stage _ _ _ (mem_of_mem_stage _ _ _ hmem)
  have hg : (f.filterStartDate.isSome || f.filterEndDate.isSome) = true := by
    rcases hd with h | h <;> simp [Option.isSome_iff_ne_none, h]
  unfold stage at h1
  rw [stageGuard_one, if_pos hg, stagePred_one] at h1
  have hp := (List.mem_filter.mp h1).2
  simp [datePred, hc] at hp

/-- Witness for `missing_timestamp_excluded`: with a start bound set,
the point with no timestamp is dropped. -/
theorem missing_timestamp_excluded_witness :
    (startOnlyFilters.filterStartDate ≠ none ∨
        startOnlyFilters.filterEndDate ≠ none) ∧
      basePoint.created_at = none ∧
      basePoint ∉ filteredPoints [] startOnlyFilters [basePoint] :=
  ⟨Or.inl (by decide), rfl,
    missing_timestamp_excluded [] startOnlyFilters [basePoint] basePoint
      (Or.inl (by decide)) rfl⟩

/-- C8: for every input sequence, the counts of the danger-type
histogram sum to the danger count, and so do the counts of the
health-status histogram — every hazard point increments the count and
exactly one bucket of each histogram, other points touch neither. -/
theorem histogram_totals_eq_danger (ps : List Point) :
    htotal (stats ps).dangerTypes = (stats ps).danger ∧
      htotal (stats ps).healthStatus = (stats ps).danger := by
  unfold stats
  rw [foldl_statsStep_htotal_dangerTypes, foldl_statsStep_htotal_healthStatus,
    foldl_statsStep_danger]
  constructor <;> simp [initStats, htotal_nil]

/-- C9: the aggregator treats an empty-string hazard category or health
status exactly like an absent one — both default to the literal
`"Desconocido"` bucket, so a hazard point with empty-string fields
yields the same statistics as the same point with the fields absent, in
every surrounding sequence. -/
theorem empty_string_as_unknown (pre post : List Point) (p : Point)
    (h : p.type = "Peligro") :
    orDesconocido (some ("")) = "Desconocido" ∧
      orDesconocido none = "Desconocido" ∧
      stats (pre ++
          { p with danger_type := some (""), health_status := some ("") } :: post) =
        stats (pre ++
          { p with danger_type := none, health_status := none } :: post) := by
  refine ⟨rfl, rfl, ?_⟩
  unfold stats
  rw [List.foldl_append, List.foldl_append, List.foldl_cons, List.foldl_cons]
  have h1 : ¬ p.type = "Avistamiento" := by rw [h]; decide
  have hstep : ∀ acc : Stats,
      statsStep acc { p with danger_type := some (""), health_status := some ("") } =
        statsStep acc { p with danger_type := none, health_status := none } := by
    intro acc
    simp [statsStep, h, h1, orDesconocido]
  rw [hstep]

/-- Witness for `empty_string_as_unknown` on a concrete hazard point. -/
theorem empty_string_as_unknown_witness :
    hazardNetOnly.type = "Peligro" ∧
      stats [{ hazardNetOnly with
               danger_type := some (""), health_status := some ("") }] =
        stats [{ hazardNetOnly with
                 danger_type := none, health_status := none }] :=
  ⟨rfl, (empty_string_as_unknown [] [] hazardNetOnly rfl).2.2⟩

/-- C10: when `filterUser` names a specific user, a point whose trip
reference is null or names no trip of the collection is excluded by the
pipeline (the user stage treats the dangling reference as no match)
rather than causing any failure. -/
theorem dangling_trip_excluded (trips : List Trip) (f : Filters)
    (ps : List Point) (p : Point) (hu : f.filterUser ≠ "all")
    (hdangling : p.trip_id = none ∨ ∀ t ∈ trips, some t.id ≠ p.trip_id) :
    p ∉ filteredPoints trips f ps := by
  intro hmem
  rw [filteredPoints_eq_stages] at hmem
  have h0 : p ∈ stage trips f 0 ps :=
    mem_of_mem_stage _ _ _ (mem_of_mem_stage _ _ _ (mem_of_mem_stage _ _ _ hmem))
  have hg : stageGuard f 0 = true := by
    rw [stageGuard_zero]
    exact bne_iff_ne.mpr hu
  unfold stage at h0
  rw [if_pos hg, stagePred_zero] at h0
  have hp := (List.mem_filter.mp h0).2
  rcases hdangling with hnone | hdang
  · simp [userPred, hnone] at hp
  · rcases htid : p.trip_id with _ | tid
    · simp [userPred, htid] at hp
    · simp only [userPred, htid] at hp
      have hp2 : tid ∈ userTripIds trips f.filterUser := by simpa using hp
      obtain ⟨t, htmem, hid⟩ := List.mem_map.mp hp2
      have := hdang t (List.mem_filter.mp htmem).1
      rw [htid, hid] at this
      exact this rfl

/-- Witness for `dangling_trip_excluded`: under the u1 user filter, the
point whose trip reference is dangling is dropped. -/
theorem dangling_trip_excluded_witness :
    userFilters.filterUser ≠ "all" ∧
      (∀ t ∈ [tripA], some t.id ≠ ghostPoint.trip_id) ∧
      ghostPoint ∉ filteredPoints [tripA] userFilters [ghostPoint] :=
  ⟨by decide, by decide,
    dangling_trip_excluded [tripA] userFilters [ghostPoint] ghostPoint
      (by decide) (Or.inr (by decide))⟩
